import Mathlib

/-!
Verification of the asynchronous image-source loading and playback core of
imv, embedded from src/imv.c (and, for the Navigator collaborator whose
implementation lives outside this repository snapshot, from the spec).

Machine integers of the C code are modelled as Nat with explicit reduction
modulo 2^32 (unsigned int) or 2^64 (unsigned long / size_t) at the points
where the C arithmetic can wrap.
-/

/-- Cardinality of C unsigned int (32-bit). -/
def UINT32_CARD : Nat := 2 ^ 32

/-- Cardinality of C unsigned long / size_t (64-bit). -/
def ULONG_CARD : Nat := 2 ^ 64

/-- enum scaling_mode, src/imv.c lines 33-38: SCALING_NONE. -/
def SCALING_NONE : Nat := 0

/-- SCALING_DOWN. -/
def SCALING_DOWN : Nat := 1

/-- SCALING_FULL. -/
def SCALING_FULL : Nat := 2

/-- SCALING_MODE_COUNT. -/
def SCALING_MODE_COUNT : Nat := 3

/-- A fully decoded raster frame (struct imv_bitmap): width/height plus an
identity tag standing for the heap allocation, so that releasing a bitmap
can be tracked. -/
structure Bitmap where
  width : Nat
  height : Nat
  tag : Nat
  deriving DecidableEq, Repr

/-- A decode result message (struct imv_source_message): the identity of the
originating imv_source, an optional bitmap payload (absent on decode
failure), and the frame duration in milliseconds. -/
structure SourceMessage where
  source : Nat
  bitmap : Option Bitmap
  frametime : Nat
  deriving DecidableEq, Repr

/-- The SDL user events pushed by source_callback (imv->events.NEW_IMAGE
carrying the bitmap, the frametime as code and the is-new-image flag as
data2, and imv->events.BAD_IMAGE). -/
inductive ImvEvent
  | NEW_IMAGE (bitmap : Bitmap) (frametime : Nat) (is_new_image : Bool)
  | BAD_IMAGE
  deriving DecidableEq, Repr

/-- The fields of struct imv (src/imv.c lines 70-181) read or written by the
decode/playback core under verification.  Sources are identified by Nat
tags (pointer identity); source_load_next_frame records whether the current
source has a non-null load_next_frame capability.  Window/SDL handles and
text fields are outside the modelled core. -/
structure ImvState where
  quit : Bool
  loading : Bool
  need_redraw : Bool
  need_rescale : Bool
  need_resize : Bool
  resize_mode : Nat
  scaling_mode : Nat
  slideshow_image_duration : Nat
  slideshow_time_elapsed : Nat
  next_frame_due : Nat
  next_frame_duration : Nat
  next_frame : Option Bitmap
  image : Option Bitmap
  current_image_width : Nat
  current_image_height : Nat
  source : Option Nat
  source_load_next_frame : Bool
  last_source : Option Nat
  stdin_image_data : Bool
  deriving DecidableEq, Repr

/-! ## Navigator

The Navigator implementation (navigator.c) is not part of this source
snapshot; the definitions below are modelled from the spec (§3, §4.3):
an ordered sequence of path entries, a selection index, a one-shot
"changed" flag and a "wrapped" flag. -/

/-- Modelled from the spec: Navigator state — ordered entries, selection
index, edge-triggered changed flag, wrapped flag. -/
structure Navigator where
  entries : List String
  sel : Nat
  changed : Bool
  wrapped : Bool
  deriving DecidableEq, Repr

/-- Remove the first occurrence of a path from a list, returning its index
and the remaining list, or none when the path does not occur. -/
def remove_first : List String → String → Option (Nat × List String)
  | [], _ => none
  | x :: xs, p =>
    if x = p then some (0, xs)
    else
      match remove_first xs p with
      | none => none
      | some (i, ys) => some (i + 1, x :: ys)

/-- Modelled from the spec: selection() returns the current path, or the
empty sentinel "" if the list is empty (imv.c compares the result against
"" and "-"). -/
def imv_navigator_selection (nav : Navigator) : String :=
  match nav.entries[nav.sel]? with
  | some p => p
  | none => ""

/-- Modelled from the spec: remove(path) removes the first matching entry;
if it was selected, selection advances to the next remaining entry per the
wrap policy and the changed flag is set. -/
def imv_navigator_remove (nav : Navigator) (path : String) : Navigator :=
  match remove_first nav.entries path with
  | none => nav
  | some (idx, rest) =>
    if idx = nav.sel then
      { nav with entries := rest,
                 sel := if nav.sel < rest.length then nav.sel else 0,
                 changed := true }
    else
      { nav with entries := rest,
                 sel := if idx < nav.sel then nav.sel - 1 else nav.sel }

/-- Modelled from the spec: poll_changed() is edge-triggered — it returns
the changed flag and clears it. -/
def imv_navigator_poll_changed (nav : Navigator) : Bool × Navigator :=
  (nav.changed, { nav with changed := false })

/-! ## source_callback and event handling -/

/-- source_callback (src/imv.c lines 328-363), run on a background decode
context.  A message whose originating source is not the current one is
dropped: its bitmap payload (if any) is freed and nothing is pushed.
Otherwise a NEW_IMAGE event (bitmap present) or BAD_IMAGE event (decode
failure) is pushed; is_new_image compares the origin against last_source,
which is then updated.  Returns the updated state, the pushed events and
the freed bitmaps. -/
def source_callback (st : ImvState) (msg : SourceMessage) :
    ImvState × List ImvEvent × List Bitmap :=
  if (some msg.source : Option Nat) ≠ st.source then
    (st, [], msg.bitmap.toList)
  else
    match msg.bitmap with
    | some bmp =>
      let is_new_image : Bool := (some msg.source : Option Nat) ≠ st.last_source
      ({ st with last_source := some msg.source },
       [ImvEvent.NEW_IMAGE bmp msg.frametime is_new_image], [])
    | none =>
      (st, [ImvEvent.BAD_IMAGE], [])

/-- handle_new_image (src/imv.c lines 1024-1051): install the bitmap as the
displayed image (imv_image_set_bitmap copies it, then the payload is
freed), cache its dimensions, set the dirty flags, clear loading, and set
next_frame_due to GetTicks()+frametime for animated images or 0 for still
images (the 32-bit unsigned addition wraps).  The window resize and the
async_load_next_frame kick-off are external effects; the need_resize flag
is consumed within the function, leaving it false. -/
def handle_new_image (st : ImvState) (ticks : Nat) (bmp : Bitmap) (frametime : Nat) :
    ImvState × List Bitmap :=
  ({ st with
      image := some bmp,
      current_image_width := bmp.width,
      current_image_height := bmp.height,
      need_redraw := true,
      need_rescale := true,
      need_resize := false,
      loading := false,
      next_frame_due := if frametime ≠ 0 then (ticks + frametime) % UINT32_CARD else 0,
      next_frame_duration := 0 },
   [bmp])

/-- handle_new_frame (src/imv.c lines 1053-1061): stash the prefetched next
frame (freeing any previously stashed one) and record its duration;
next_frame_due is left untouched. -/
def handle_new_frame (st : ImvState) (bmp : Bitmap) (frametime : Nat) :
    ImvState × List Bitmap :=
  ({ st with next_frame := some bmp, next_frame_duration := frametime },
   st.next_frame.toList)

/-- The NEW_IMAGE / BAD_IMAGE branches of handle_event (src/imv.c lines
1063-1091).  BAD_IMAGE removes the current selection from the navigator,
first releasing the stdin image buffer when the selection is "-". -/
def handle_event (st : ImvState) (nav : Navigator) (ticks : Nat) (ev : ImvEvent) :
    ImvState × Navigator × List Bitmap :=
  match ev with
  | ImvEvent.NEW_IMAGE bmp ft is_new =>
    if is_new then
      let r := handle_new_image st ticks bmp ft
      (r.1, nav, r.2)
    else
      let r := handle_new_frame st bmp ft
      (r.1, nav, r.2)
  | ImvEvent.BAD_IMAGE =>
    let err_path := imv_navigator_selection nav
    let st2 := if err_path = "-" then { st with stdin_image_data := false } else st
    (st2, imv_navigator_remove nav err_path, [])

/-- Handle a list of pushed events in order, accumulating freed bitmaps. -/
def handle_events (st : ImvState) (nav : Navigator) (ticks : Nat) :
    List ImvEvent → ImvState × Navigator × List Bitmap
  | [] => (st, nav, [])
  | ev :: rest =>
    let r := handle_event st nav ticks ev
    let rr := handle_events r.1 r.2.1 ticks rest
    (rr.1, rr.2.1, r.2.2 ++ rr.2.2)

/-- End-to-end delivery of one decode message: source_callback filters and
pushes events; the orchestrator then drains and handles them.  Returns the
final state, navigator and every bitmap freed along the way. -/
def process_message (st : ImvState) (nav : Navigator) (ticks : Nat) (msg : SourceMessage) :
    ImvState × Navigator × List Bitmap :=
  let c := source_callback st msg
  let h := handle_events c.1 nav ticks c.2.1
  (h.1, h.2.1, c.2.2 ++ h.2.2)

/-! ## Backend registry and resolution -/

/-- Result of a backend capability call (enum backend_result as used by
imv.c): success carries the produced Source's identity; anything other
than unsupported stops the probe loop, but only success installs. -/
inductive BackendResult
  | bsuccess (source : Nat)
  | bunsupported
  | bfailure
  deriving DecidableEq, Repr

/-- A backend capability descriptor (struct imv_backend, spec §6): identity
metadata plus two optional capability functions; a missing function means
that input kind is unsupported by this backend. -/
structure Backend where
  name : String
  open_path : Option (String → BackendResult)
  open_memory : Option (List Nat → BackendResult)

/-- One probe of a backend inside the resolution loop of imv_run (src/imv.c
lines 821-847): stdin input uses open_memory, paths use open_path; none
means the backend lacks the capability and is skipped without probing. -/
def probe (b : Backend) (path_is_stdin : Bool) (path : String) (data : List Nat) :
    Option BackendResult :=
  if path_is_stdin then
    match b.open_memory with
    | none => none
    | some f => some (f data)
  else
    match b.open_path with
    | none => none
    | some f => some (f path)

/-- The backend resolution loop of imv_run (src/imv.c lines 816-847): walk
the chain in order, skip backends lacking the needed capability, continue
past BACKEND_UNSUPPORTED, stop at the first other answer.  Also returns
the names of the backends actually probed, in probe order.  An empty chain
yields bunsupported. -/
def resolve_chain : List Backend → Bool → String → List Nat → BackendResult × List String
  | [], _, _, _ => (BackendResult.bunsupported, [])
  | b :: rest, is_stdin, path, data =>
    match probe b is_stdin path data with
    | none => resolve_chain rest is_stdin path data
    | some BackendResult.bunsupported =>
      let r := resolve_chain rest is_stdin path data
      (r.1, b.name :: r.2)
    | some r => (r, [b.name])

/-- imv_install_backend (src/imv.c lines 487-493): the new backend is
prepended to the chain (chain->next = imv->backends; imv->backends =
chain). -/
def imv_install_backend (backends : List Backend) (b : Backend) : List Backend :=
  b :: backends

/-- Install a whole sequence of backends in order, starting from the empty
registry. -/
def install_all (bs : List Backend) : List Backend :=
  bs.foldl imv_install_backend []

/-- Names of the backends of a chain that would actually be probed (those
holding the capability needed for this input kind). -/
def probed_names (chain : List Backend) (is_stdin : Bool) (path : String) (data : List Nat) :
    List String :=
  chain.filterMap fun b =>
    if (probe b is_stdin path data).isSome then some b.name else none

/-! ## Source teardown -/

/-- How a piece of cleanup work is executed: a direct call on the
orchestrating thread, or a detached background thread that is never
joined. -/
inductive Dispatch
  | callSync
  | spawnDetached
  deriving DecidableEq, Repr

/-- async_free_source (src/imv.c lines 296-308): SDL_CreateThread running
src->free, immediately SDL_DetachThread-ed — a detached background
dispatch that is never waited on. -/
def async_free_source_dispatch : Dispatch := Dispatch.spawnDetached

/-- A resource-release action, tagged with how it is dispatched for the
Source case. -/
inductive FreeEvent
  | freeSource (d : Dispatch)
  | freeBitmap
  | freeOther (what : String)
  deriving DecidableEq, Repr

/-- imv_free (src/imv.c lines 442-485): the shutdown teardown sequence, as
the ordered list of release actions it performs.  The current Source, when
present, is freed by a direct call imv->source->free(imv->source) on the
calling thread.  The trailing SDL/TTF object teardown (renderer, window,
background texture, font) is presentation-layer and omitted. -/
def imv_free_events (has_source has_image has_next_frame has_stdin_data has_input_buffer : Bool) :
    List FreeEvent :=
  [FreeEvent.freeOther "font_name", FreeEvent.freeOther "title_text",
   FreeEvent.freeOther "overlay_text", FreeEvent.freeOther "binds",
   FreeEvent.freeOther "navigator"]
  ++ (if has_source then [FreeEvent.freeSource Dispatch.callSync] else [])
  ++ [FreeEvent.freeOther "commands", FreeEvent.freeOther "viewport"]
  ++ (if has_image then [FreeEvent.freeOther "image"] else [])
  ++ (if has_next_frame then [FreeEvent.freeBitmap] else [])
  ++ (if has_stdin_data then [FreeEvent.freeOther "stdin_image_data"] else [])
  ++ (if has_input_buffer then [FreeEvent.freeOther "input_buffer"] else [])

/-! ## The selection-resolution loop of imv_run -/

/-- The state touched by the inner selection-resolution loop of imv_run:
the navigator, the current source, the loading flag, and the teardown
actions dispatched so far. -/
structure LoopState where
  nav : Navigator
  source : Option Nat
  loading : Bool
  teardowns : List FreeEvent

/-- The success branch of the resolution loop (src/imv.c lines 849-859): if
a Source is current it is handed to async_free_source (a detached
background thread), then the new Source is installed and marked loading. -/
def install_new_source (st : LoopState) (s : Nat) : LoopState :=
  let st1 :=
    match st.source with
    | some _ =>
      { st with teardowns := st.teardowns ++ [FreeEvent.freeSource async_free_source_dispatch] }
    | none => st
  { st1 with source := some s, loading := true }

/-- The inner while loop of imv_run (src/imv.c lines 808-869), with
explicit fuel: while poll_changed reports a change, take the selection; an
empty selection does nothing; otherwise resolve it through the backend
chain — on success install the new source, on any failure remove the
offending entry from the navigator.  Returns none when the fuel runs
out. -/
def select_loop_fuel (chain : List Backend) (data : List Nat) :
    Nat → LoopState → Option LoopState
  | 0, _ => none
  | fuel + 1, st =>
    let p := imv_navigator_poll_changed st.nav
    if p.1 = false then some { st with nav := p.2 }
    else
      let st1 := { st with nav := p.2 }
      let path := imv_navigator_selection st1.nav
      if path = "" then select_loop_fuel chain data fuel st1
      else
        match (resolve_chain chain (path = "-") path data).1 with
        | BackendResult.bsuccess s => select_loop_fuel chain data fuel (install_new_source st1 s)
        | _ =>
          select_loop_fuel chain data fuel
            { st1 with nav := imv_navigator_remove st1.nav path }

/-! ## Iteration-level checks of imv_run -/

/-- The termination checks at the top of each imv_run iteration (src/imv.c
lines 779-801): exit on quit; exit when looping is disabled and the
navigator has wrapped; exit when paths are not being read from stdin and
the navigator is empty. -/
def run_loop_exit (quit loop_input paths_from_stdin wrapped : Bool) (nav_length : Nat) : Bool :=
  if quit then true
  else if !loop_input && wrapped then true
  else if !paths_from_stdin && nav_length == 0 then true
  else false

/-- The frame-promotion step of imv_run (src/imv.c lines 886-905): when
playback is active, a prefetched frame exists, next_frame_due is nonzero
and has elapsed, promote the prefetched frame to displayed (freeing it
after the copy), schedule the following frame at now + duration (32-bit
wraparound) and mark redraw.  The async_load_next_frame kick-off is an
external effect. -/
def check_next_frame (st : ImvState) (playing : Bool) (current_time : Nat) :
    ImvState × List Bitmap :=
  match st.next_frame with
  | some nf =>
    if playing && decide (st.next_frame_due ≠ 0) && decide (st.next_frame_due ≤ current_time) then
      ({ st with
          image := some nf,
          current_image_width := nf.width,
          current_image_height := nf.height,
          next_frame := none,
          next_frame_due := (current_time + st.next_frame_duration) % UINT32_CARD,
          next_frame_duration := 0,
          need_redraw := true }, [nf])
    else (st, [])
  | none => (st, [])

/-- The timeout computation at the end of each imv_run iteration (src/imv.c
lines 931-942): start from the fixed 1000 ms idle ceiling, and when
playback is active and the next frame is due in the future, replace it by
the remaining time to that due timestamp. -/
def compute_timeout (playing : Bool) (next_frame_due current_time : Nat) : Nat :=
  let timeout : Nat := 1000
  if playing && decide (next_frame_due > current_time) then next_frame_due - current_time
  else timeout

/-! ## Commands -/

/-- command_next_frame (src/imv.c lines 1599-1608): when a current source
with a load_next_frame capability exists, kick off loading (external
effect) and set next_frame_due to 1, the earliest possible nonzero
timestamp. -/
def command_next_frame (st : ImvState) : ImvState :=
  if st.source.isSome && st.source_load_next_frame then
    { st with next_frame_due := 1 }
  else st

/-- command_set_scaling_mode (src/imv.c lines 1618-1646): with exactly one
argument, "next" advances the mode cyclically modulo SCALING_MODE_COUNT,
"none"/"shrink"/"full" set the mode directly, and anything else returns
without touching the state; a recognised argument dirties rescale and
redraw. -/
def command_set_scaling_mode (args : List String) (st : ImvState) : ImvState :=
  if args.length ≠ 2 then st
  else
    let mode := args.getD 1 ""
    if mode = "next" then
      { st with scaling_mode := (st.scaling_mode + 1) % SCALING_MODE_COUNT,
                need_rescale := true, need_redraw := true }
    else if mode = "none" then
      { st with scaling_mode := SCALING_NONE, need_rescale := true, need_redraw := true }
    else if mode = "shrink" then
      { st with scaling_mode := SCALING_DOWN, need_rescale := true, need_redraw := true }
    else if mode = "full" then
      { st with scaling_mode := SCALING_FULL, need_rescale := true, need_redraw := true }
    else st

/-- command_set_slideshow_duration (src/imv.c lines 1648-1664): with
exactly one argument n, let delta = 1000 * n; when delta is negative and
its magnitude exceeds the current duration, clamp the duration to 0,
otherwise add delta (unsigned long arithmetic, 64-bit).  A successful
adjustment dirties redraw. -/
def command_set_slideshow_duration (args_len : Nat) (n : Int) (st : ImvState) : ImvState :=
  if args_len = 2 then
    let delta : Int := 1000 * n
    if delta < 0 ∧ delta.natAbs > st.slideshow_image_duration then
      { st with slideshow_image_duration := 0, need_redraw := true }
    else
      { st with
          slideshow_image_duration :=
            ((st.slideshow_image_duration : Int) + delta).toNat % ULONG_CARD,
          need_redraw := true }
  else st

/-! ## Concrete states used by witnesses and counterexamples -/

/-- A concrete bitmap. -/
def bmp0 : Bitmap := { width := 10, height := 8, tag := 7 }

/-- A concrete imv state whose current source is source 1. -/
def st0 : ImvState :=
  { quit := false, loading := false, need_redraw := false, need_rescale := false,
    need_resize := false, resize_mode := 0, scaling_mode := 2,
    slideshow_image_duration := 500, slideshow_time_elapsed := 0,
    next_frame_due := 0, next_frame_duration := 0, next_frame := none,
    image := none, current_image_width := 0, current_image_height := 0,
    source := some 1, source_load_next_frame := true, last_source := some 1,
    stdin_image_data := false }

/-- A concrete imv state holding a prefetched frame with no pending timer. -/
def st8 : ImvState :=
  { st0 with next_frame := some bmp0, next_frame_duration := 40 }

/-- A concrete navigator with two entries, the first selected. -/
def nav0 : Navigator :=
  { entries := ["a.png", "b.png"], sel := 0, changed := false, wrapped := false }

/-- A concrete decode message originating from source 2 (not current in
st0) carrying a bitmap payload. -/
def msg0 : SourceMessage := { source := 2, bitmap := some bmp0, frametime := 0 }

/-- A backend that rejects every input. -/
def backendA : Backend :=
  { name := "A",
    open_path := some fun _ => BackendResult.bunsupported,
    open_memory := some fun _ => BackendResult.bunsupported }

/-- A backend that accepts every input, producing source 100. -/
def backendB : Backend :=
  { name := "B",
    open_path := some fun _ => BackendResult.bsuccess 100,
    open_memory := some fun _ => BackendResult.bsuccess 100 }

/-! ## Supporting lemmas -/

theorem remove_first_spec (l : List String) (p : String) (h : p ∈ l) :
    ∃ i ys, remove_first l p = some (i, ys) ∧ ys.length + 1 = l.length ∧
      ys.count p + 1 = l.count p := by
  induction l with
  | nil => cases h
  | cons x xs ih =>
    by_cases hx : x = p
    · refine ⟨0, xs, by simp [remove_first, hx], rfl, ?_⟩
      subst hx
      simp [List.count_cons]
    · have hmem : p ∈ xs := by
        rcases List.mem_cons.mp h with h1 | h1
        · exact absurd h1.symm hx
        · exact h1
      rcases ih hmem with ⟨i, ys, heq, hlen, hcount⟩
      refine ⟨i + 1, x :: ys, by simp [remove_first, hx, heq], by simp [← hlen], ?_⟩
      simp [List.count_cons, hcount, hx]

theorem selection_mem (nav : Navigator) (h : imv_navigator_selection nav ≠ "") :
    imv_navigator_selection nav ∈ nav.entries := by
  unfold imv_navigator_selection at h ⊢
  cases hg : nav.entries[nav.sel]? with
  | none => rw [hg] at h; exact absurd rfl h
  | some p => exact List.getElem?_mem hg

theorem remove_length (nav : Navigator) (path : String) (h : path ∈ nav.entries) :
    (imv_navigator_remove nav path).entries.length + 1 = nav.entries.length := by
  rcases remove_first_spec nav.entries path h with ⟨i, ys, heq, hlen, _⟩
  unfold imv_navigator_remove
  rw [heq]
  by_cases hi : i = nav.sel <;> simp [hi, hlen]

theorem install_all_append (bs acc : List Backend) :
    bs.foldl imv_install_backend acc = bs.reverse ++ acc := by
  induction bs generalizing acc with
  | nil => simp
  | cons b bs ih => simp [imv_install_backend, ih]

theorem install_all_eq_reverse (bs : List Backend) : install_all bs = bs.reverse := by
  simpa using install_all_append bs []

theorem resolve_chain_skip_prefix (pre rest : List Backend) (is_stdin : Bool) (path : String)
    (data : List Nat)
    (h : ∀ b ∈ pre, probe b is_stdin path data = none ∨
      probe b is_stdin path data = some BackendResult.bunsupported) :
    resolve_chain (pre ++ rest) is_stdin path data
      = ((resolve_chain rest is_stdin path data).1,
         probed_names pre is_stdin path data ++ (resolve_chain rest is_stdin path data).2) := by
  induction pre with
  | nil => simp [probed_names]
  | cons b pre ih =>
    have hb := h b (by simp)
    have hpre : ∀ b2 ∈ pre, probe b2 is_stdin path data = none ∨
        probe b2 is_stdin path data = some BackendResult.bunsupported :=
      fun b2 hb2 => h b2 (by simp [hb2])
    rcases hb with hb | hb
    · simp [resolve_chain, hb, probed_names, ih hpre]
    · simp [resolve_chain, hb, probed_names, ih hpre]

theorem resolve_chain_hit (b : Backend) (rest : List Backend) (is_stdin : Bool) (path : String)
    (data : List Nat) (r : BackendResult)
    (h : probe b is_stdin path data = some r) (hr : r ≠ BackendResult.bunsupported) :
    resolve_chain (b :: rest) is_stdin path data = (r, [b.name]) := by
  cases r with
  | bsuccess s => simp [resolve_chain, h]
  | bunsupported => exact absurd rfl hr
  | bfailure => simp [resolve_chain, h]

/-! ## Claim theorems -/

/-- C1: a decode message whose originating Source differs from the current
Source is discarded by source_callback — no event is pushed (hence, end to
end, PlaybackState and the navigator are unchanged) and its bitmap payload
is freed. -/
theorem stale_message_discarded (st : ImvState) (nav : Navigator) (ticks : Nat)
    (msg : SourceMessage) (h : (some msg.source : Option Nat) ≠ st.source) :
    source_callback st msg = (st, [], msg.bitmap.toList) ∧
    process_message st nav ticks msg = (st, nav, msg.bitmap.toList) := by
  have hcb : source_callback st msg = (st, [], msg.bitmap.toList) := by
    simp [source_callback, h]
  exact ⟨hcb, by simp [process_message, hcb, handle_events]⟩

/-- Witness for C1 at a concrete stale message. -/
theorem stale_message_discarded_witness :
    ((some msg0.source : Option Nat) ≠ st0.source) ∧
    (source_callback st0 msg0 = (st0, [], msg0.bitmap.toList) ∧
     process_message st0 nav0 0 msg0 = (st0, nav0, msg0.bitmap.toList)) :=
  ⟨by decide, stale_message_discarded st0 nav0 0 msg0 (by decide)⟩

/-- C2: backends are probed most-recently-registered first.  If the chain
was built by installing the sequence bs1 ++ b :: bs2 (so the members of
bs2 are more recently registered than b), every member of bs2 either lacks
the needed capability or answers unsupported, and b answers r ≠
unsupported, then resolution returns r, having probed exactly the capable
members of bs2 (in reverse registration order) before b. -/
theorem backend_resolution_order (bs1 bs2 : List Backend) (b : Backend) (is_stdin : Bool)
    (path : String) (data : List Nat) (r : BackendResult)
    (h1 : ∀ b2 ∈ bs2, probe b2 is_stdin path data = none ∨
      probe b2 is_stdin path data = some BackendResult.bunsupported)
    (h2 : probe b is_stdin path data = some r)
    (h3 : r ≠ BackendResult.bunsupported) :
    resolve_chain (install_all (bs1 ++ b :: bs2)) is_stdin path data
      = (r, probed_names bs2.reverse is_stdin path data ++ [b.name]) := by
  have hrev : install_all (bs1 ++ b :: bs2) = bs2.reverse ++ b :: bs1.reverse := by
    rw [install_all_eq_reverse]
    simp
  have hpre : ∀ b2 ∈ bs2.reverse, probe b2 is_stdin path data = none ∨
      probe b2 is_stdin path data = some BackendResult.bunsupported :=
    fun b2 hb2 => h1 b2 (List.mem_reverse.mp hb2)
  rw [hrev, resolve_chain_skip_prefix bs2.reverse (b :: bs1.reverse) is_stdin path data hpre,
      resolve_chain_hit b bs1.reverse is_stdin path data r h2 h3]

/-- Witness for C2: installing B (accepts everything) then A (rejects
everything) yields a chain that probes A first and returns B's source;
the probe trace evaluates to A before B. -/
theorem backend_resolution_order_witness :
    (∀ b2 ∈ [backendA], probe b2 false "input.png" [] = none ∨
      probe b2 false "input.png" [] = some BackendResult.bunsupported) ∧
    probe backendB false "input.png" [] = some (BackendResult.bsuccess 100) ∧
    BackendResult.bsuccess 100 ≠ BackendResult.bunsupported ∧
    probed_names [backendA].reverse false "input.png" [] ++ [backendB.name] = ["A", "B"] ∧
    resolve_chain (install_all ([] ++ backendB :: [backendA])) false "input.png" []
      = (BackendResult.bsuccess 100,
         probed_names [backendA].reverse false "input.png" [] ++ [backendB.name]) :=
  ⟨fun b2 hb2 => by
      rcases List.mem_singleton.mp hb2 with h
      subst h
      right
      rfl,
   rfl, by simp, rfl,
   backend_resolution_order [] [backendA] backendB false "input.png" []
     (BackendResult.bsuccess 100)
     (fun b2 hb2 => by
       rcases List.mem_singleton.mp hb2 with h
       subst h
       right
       rfl)
     rfl (by simp)⟩

/-- Termination measure for the selection-resolution loop: twice the
navigator length plus one when a change is pending. -/
def nav_measure (nav : Navigator) : Nat :=
  2 * nav.entries.length + (if nav.changed then 1 else 0)

theorem select_loop_fuel_total (chain : List Backend) (data : List Nat) :
    ∀ fuel st, nav_measure st.nav < fuel →
      (select_loop_fuel chain data fuel st).isSome := by
  intro fuel
  induction fuel with
  | zero => intro st h; exact absurd h (Nat.not_lt_zero _)
  | succ n ih =>
    intro st h
    by_cases hc : st.nav.changed
    · have hmeas : 2 * st.nav.entries.length < n := by
        unfold nav_measure at h
        rw [if_pos hc] at h
        omega
      simp only [select_loop_fuel, imv_navigator_poll_changed, hc]
      simp only [Bool.true_eq_false, if_false]
      by_cases hpath : imv_navigator_selection { st.nav with changed := false } = ""
      · rw [if_pos hpath]
        apply ih
        unfold nav_measure
        simp
        omega
      · rw [if_neg hpath]
        have hsel : imv_navigator_selection { st.nav with changed := false }
            ∈ st.nav.entries := selection_mem _ hpath
        cases hres : (resolve_chain chain
            ((imv_navigator_selection { st.nav with changed := false }) = "-")
            (imv_navigator_selection { st.nav with changed := false }) data).1 with
        | bsuccess s =>
          apply ih
          unfold nav_measure
          simp [install_new_source]
          cases hsrc : st.source <;> simp [hsrc] <;> omega
        | bunsupported =>
          apply ih
          have hlen := remove_length { st.nav with changed := false } _ hsel
          simp only [] at hlen
          unfold nav_measure
          by_cases hch : (imv_navigator_remove { st.nav with changed := false }
              (imv_navigator_selection { st.nav with changed := false })).changed <;>
            simp [hch] <;> omega
        | bfailure =>
          apply ih
          have hlen := remove_length { st.nav with changed := false } _ hsel
          simp only [] at hlen
          unfold nav_measure
          by_cases hch : (imv_navigator_remove { st.nav with changed := false }
              (imv_navigator_selection { st.nav with changed := false })).changed <;>
            simp [hch] <;> omega
    · simp [select_loop_fuel, imv_navigator_poll_changed, hc]

/-- C3: the selection-resolution loop of imv_run terminates for every
starting state — a fuel of nav_measure + 1 always suffices, because a
failed resolution strictly shrinks the navigator and any other iteration
clears the edge-triggered changed flag. -/
theorem selection_loop_terminates (chain : List Backend) (data : List Nat) (st : LoopState) :
    (select_loop_fuel chain data (nav_measure st.nav + 1) st).isSome :=
  select_loop_fuel_total chain data _ st (Nat.lt_succ_self _)

/-- C4 counterexample: on shutdown, imv_free with a current Source invokes
the Source's free() as a direct synchronous call, and dispatches no
background free — contradicting the claim that teardown is always
asynchronous. -/
theorem shutdown_frees_source_synchronously :
    (imv_free_events true true true false false).contains
        (FreeEvent.freeSource Dispatch.callSync) = true ∧
    (imv_free_events true true true false false).contains
        (FreeEvent.freeSource Dispatch.spawnDetached) = false := by
  decide

/-- C4 amended: installing a replacement Source dispatches the old Source's
free() to a detached background thread (and never waits on it), while
imv_free on shutdown frees the current Source, when present, with a direct
synchronous call and never with a background dispatch. -/
theorem source_teardown_dispatch :
    (∀ st s, (install_new_source st s).teardowns
        = st.teardowns ++ (if st.source.isSome then
            [FreeEvent.freeSource Dispatch.spawnDetached] else [])
      ∧ (install_new_source st s).source = some s) ∧
    (∀ hs hi hnf hsd hib,
      ((imv_free_events hs hi hnf hsd hib).contains
          (FreeEvent.freeSource Dispatch.callSync) = hs) ∧
      ((imv_free_events hs hi hnf hsd hib).contains
          (FreeEvent.freeSource Dispatch.spawnDetached) = false)) := by
  constructor
  · intro st s
    cases hsrc : st.source <;>
      simp [install_new_source, hsrc, async_free_source_dispatch]
  · intro hs hi hnf hsd hib
    cases hs <;> cases hi <;> cases hnf <;> cases hsd <;> cases hib <;> decide

/-- C5: handling a BAD_IMAGE (decode-failure) event removes the current
selection from the navigator; when that path occurs exactly once, it is no
longer an entry afterwards, so it can never be selected and resolved
again. -/
theorem decode_failure_prunes_entry (st : ImvState) (nav : Navigator) (ticks : Nat)
    (h1 : imv_navigator_selection nav ≠ "")
    (h2 : nav.entries.count (imv_navigator_selection nav) = 1) :
    imv_navigator_selection nav ∉
      (handle_event st nav ticks ImvEvent.BAD_IMAGE).2.1.entries := by
  have hmem := selection_mem nav h1
  rcases remove_first_spec nav.entries _ hmem with ⟨i, ys, heq, hlen, hcount⟩
  have hys : ys.count (imv_navigator_selection nav) = 0 := by omega
  have hnotmem : imv_navigator_selection nav ∉ ys := List.count_eq_zero.mp hys
  have hentries : (imv_navigator_remove nav (imv_navigator_selection nav)).entries = ys := by
    unfold imv_navigator_remove
    rw [heq]
    by_cases hi : i = nav.sel <;> simp [hi]
  have hnav2 : (handle_event st nav ticks ImvEvent.BAD_IMAGE).2.1
      = imv_navigator_remove nav (imv_navigator_selection nav) := rfl
  rw [hnav2, hentries]
  exact hnotmem

/-- Witness for C5 on a concrete two-entry navigator with a pending
change. -/
theorem decode_failure_prunes_entry_witness :
    (imv_navigator_selection nav0 ≠ "") ∧
    (nav0.entries.count (imv_navigator_selection nav0) = 1) ∧
    imv_navigator_selection nav0 ∉
      (handle_event st0 nav0 0 ImvEvent.BAD_IMAGE).2.1.entries :=
  ⟨by decide, by decide, decode_failure_prunes_entry st0 nav0 0 (by decide) (by decide)⟩

/-- C6 counterexample: with playback active and the next frame due 5000 ms
in the future, the computed timeout is 5000 ms, not the claimed
min(1000, 5000). -/
theorem timeout_not_clamped_counterexample :
    ¬ (compute_timeout true 5000 0 = min 1000 (5000 - 0)) := by
  decide

/-- C6 amended: when playback is active and the next frame is due in the
future, the timeout equals the full remaining time to the due timestamp
(the 1000 ms idle ceiling is not applied as an upper bound); in every other
case — the due timestamp already elapsed while playing, or playback
inactive, whatever the timestamps — the timeout is the 1000 ms idle
ceiling. -/
theorem timeout_computation :
    (∀ due now : Nat, now < due → compute_timeout true due now = due - now) ∧
    (∀ due now : Nat, due ≤ now → compute_timeout true due now = 1000) ∧
    (∀ due now : Nat, compute_timeout false due now = 1000) := by
  refine ⟨?_, ?_, ?_⟩
  · intro due now h
    simp [compute_timeout, h]
  · intro due now h
    simp [compute_timeout, Nat.not_lt.mpr h]
  · intro due now
    simp [compute_timeout]

/-- Witness for C6, exercising all three cases: future due while playing
(due = 2000, now = 0), elapsed due while playing (due = 5, now = 5), and
playback inactive with a future due (due = 9, now = 7). -/
theorem timeout_computation_witness :
    (0 < 2000) ∧ ((5 : Nat) ≤ 5) ∧
    (compute_timeout true 2000 0 = 2000 - 0) ∧
    (compute_timeout true 5 5 = 1000) ∧
    (compute_timeout false 9 7 = 1000) :=
  ⟨by decide, by decide,
   timeout_computation.1 2000 0 (by decide),
   timeout_computation.2.1 5 5 (by decide),
   timeout_computation.2.2 9 7⟩

/-- C7: with quit not requested, the run loop's exit check fires exactly
when looping is disabled and the navigator has wrapped, or when paths are
not read from stdin and the navigator is empty; in particular, while a
stdin path-producer remains, an empty navigator alone never terminates the
loop. -/
theorem run_loop_exit_policy :
    (∀ loop_input paths_from_stdin wrapped nav_length,
        run_loop_exit false loop_input paths_from_stdin wrapped nav_length
          = ((!loop_input && wrapped) || (!paths_from_stdin && (nav_length == 0)))) ∧
    (∀ loop_input wrapped,
        run_loop_exit false loop_input true wrapped 0 = (!loop_input && wrapped)) := by
  constructor
  · intro l s w n
    cases l <;> cases s <;> cases w <;> cases hn : n == 0 <;> simp [run_loop_exit, hn]
  · intro l w
    cases l <;> cases w <;> simp [run_loop_exit]

/-- C8 counterexample: handle_new_image for an animated frame (frametime
100 ≠ 0) at tick 2^32 - 100 sets next_frame_due to (2^32 - 100 + 100) mod
2^32 = 0 — a scheduling operation that produces the "no pending timer"
sentinel, refuting the claim that every scheduling operation sets a
nonzero value. -/
theorem frame_due_overflow_counterexample :
    (100 ≠ 0) ∧
    (handle_new_image st0 (UINT32_CARD - 100) bmp0 100).1.next_frame_due = 0 := by
  refine ⟨by decide, ?_⟩
  show (if (100 : Nat) ≠ 0 then (UINT32_CARD - 100 + 100) % UINT32_CARD else 0) = 0
  norm_num [UINT32_CARD]

/-- C8 amended: next_frame_due = 0 means no pending timer — the promotion
step never fires on it; a still image load (frametime 0) stores 0; the
next_frame command stores the nonzero sentinel 1; and an animated load
stores ticks + frametime, which is nonzero whenever the 32-bit addition
does not overflow. -/
theorem zero_due_means_no_timer (st : ImvState) (playing : Bool) (now ticks ft : Nat)
    (bmp : Bitmap) (hdue : st.next_frame_due = 0) (hft : ft ≠ 0)
    (hov : ticks + ft < UINT32_CARD) :
    check_next_frame st playing now = (st, []) ∧
    (handle_new_image st ticks bmp 0).1.next_frame_due = 0 ∧
    (st.source.isSome = true ∧ st.source_load_next_frame = true →
        (command_next_frame st).next_frame_due = 1) ∧
    (handle_new_image st ticks bmp ft).1.next_frame_due = ticks + ft ∧
    ticks + ft ≠ 0 := by
  refine ⟨?_, ?_, ?_, ?_, ?_⟩
  · cases hnf : st.next_frame with
    | none => simp [check_next_frame, hnf]
    | some nf => simp [check_next_frame, hnf, hdue]
  · show (if (0 : Nat) ≠ 0 then (ticks + 0) % UINT32_CARD else 0) = 0
    simp
  · intro hcap
    simp [command_next_frame, hcap.1, hcap.2]
  · show (if ft ≠ 0 then (ticks + ft) % UINT32_CARD else 0) = ticks + ft
    rw [if_pos hft]
    exact Nat.mod_eq_of_lt hov
  · omega

/-- Witness for C8 on a concrete state with a prefetched frame and
next_frame_due = 0. -/
theorem zero_due_means_no_timer_witness :
    (st8.next_frame_due = 0) ∧ ((5 : Nat) ≠ 0) ∧ (10 + 5 < UINT32_CARD) ∧
    (check_next_frame st8 true 99 = (st8, []) ∧
     (handle_new_image st8 10 bmp0 0).1.next_frame_due = 0 ∧
     (st8.source.isSome = true ∧ st8.source_load_next_frame = true →
         (command_next_frame st8).next_frame_due = 1) ∧
     (handle_new_image st8 10 bmp0 5).1.next_frame_due = 10 + 5 ∧
     10 + 5 ≠ 0) :=
  ⟨rfl, by decide, by norm_num [UINT32_CARD],
   zero_due_means_no_timer st8 true 99 10 5 bmp0 rfl (by decide)
     (by norm_num [UINT32_CARD])⟩

/-- C9: the slideshow_duration command saturates at zero — with delta =
1000 * n negative and larger in magnitude than the current duration the
result is 0, and otherwise the result is duration + 1000 * n (within the
64-bit range). -/
theorem slideshow_duration_saturates (st : ImvState) (n : Int)
    (hsize : st.slideshow_image_duration + (1000 * n).natAbs < ULONG_CARD) :
    (1000 * n < 0 ∧ (1000 * n).natAbs > st.slideshow_image_duration →
        (command_set_slideshow_duration 2 n st).slideshow_image_duration = 0) ∧
    (¬ (1000 * n < 0 ∧ (1000 * n).natAbs > st.slideshow_image_duration) →
        ((command_set_slideshow_duration 2 n st).slideshow_image_duration : Int)
          = (st.slideshow_image_duration : Int) + 1000 * n) := by
  have hcard : ULONG_CARD = 18446744073709551616 := by norm_num [ULONG_CARD]
  rw [hcard] at hsize
  constructor
  · intro h
    simp [command_set_slideshow_duration, h]
  · intro h
    simp [command_set_slideshow_duration, h, hcard]
    omega

/-- Witness for C9 at duration 500 and n = -1 (clamped to 0). -/
theorem slideshow_duration_saturates_witness :
    (st0.slideshow_image_duration + (1000 * (-1 : Int)).natAbs < ULONG_CARD) ∧
    ((1000 * (-1 : Int) < 0 ∧
        (1000 * (-1 : Int)).natAbs > st0.slideshow_image_duration →
        (command_set_slideshow_duration 2 (-1) st0).slideshow_image_duration = 0) ∧
     (¬ (1000 * (-1 : Int) < 0 ∧
        (1000 * (-1 : Int)).natAbs > st0.slideshow_image_duration) →
        ((command_set_slideshow_duration 2 (-1) st0).slideshow_image_duration : Int)
          = (st0.slideshow_image_duration : Int) + 1000 * (-1 : Int))) :=
  ⟨by norm_num [st0, ULONG_CARD], slideshow_duration_saturates st0 (-1)
    (by norm_num [st0, ULONG_CARD])⟩

/-- C10: the scaling_mode command cycles "next" modulo the three modes (so
three applications restore the original mode), sets "none"/"shrink"/"full"
directly, and leaves the whole state (mode and dirty flags included)
unchanged on any unrecognised argument. -/
theorem scaling_mode_cycle (st : ImvState) (m : String)
    (hm : st.scaling_mode < SCALING_MODE_COUNT)
    (hother : m ≠ "next" ∧ m ≠ "none" ∧ m ≠ "shrink" ∧ m ≠ "full") :
    (command_set_scaling_mode ["scaling_mode", "next"]
        (command_set_scaling_mode ["scaling_mode", "next"]
          (command_set_scaling_mode ["scaling_mode", "next"] st))).scaling_mode
      = st.scaling_mode ∧
    (command_set_scaling_mode ["scaling_mode", "none"] st).scaling_mode = SCALING_NONE ∧
    (command_set_scaling_mode ["scaling_mode", "shrink"] st).scaling_mode = SCALING_DOWN ∧
    (command_set_scaling_mode ["scaling_mode", "full"] st).scaling_mode = SCALING_FULL ∧
    command_set_scaling_mode ["scaling_mode", m] st = st := by
  refine ⟨?_, by simp [command_set_scaling_mode], by simp [command_set_scaling_mode],
    by simp [command_set_scaling_mode], ?_⟩
  · simp only [command_set_scaling_mode]
    norm_num [SCALING_MODE_COUNT] at hm ⊢
    omega
  · simp [command_set_scaling_mode, hother.1, hother.2.1, hother.2.2.1, hother.2.2.2]

/-- Witness for C10 at a concrete state with mode SCALING_FULL and the
unrecognised argument "bogus". -/
theorem scaling_mode_cycle_witness :
    (st0.scaling_mode < SCALING_MODE_COUNT) ∧
    (("bogus" : String) ≠ "next" ∧ ("bogus" : String) ≠ "none" ∧
     ("bogus" : String) ≠ "shrink" ∧ ("bogus" : String) ≠ "full") ∧
    ((command_set_scaling_mode ["scaling_mode", "next"]
        (command_set_scaling_mode ["scaling_mode", "next"]
          (command_set_scaling_mode ["scaling_mode", "next"] st0))).scaling_mode
      = st0.scaling_mode ∧
    (command_set_scaling_mode ["scaling_mode", "none"] st0).scaling_mode = SCALING_NONE ∧
    (command_set_scaling_mode ["scaling_mode", "shrink"] st0).scaling_mode = SCALING_DOWN ∧
    (command_set_scaling_mode ["scaling_mode", "full"] st0).scaling_mode = SCALING_FULL ∧
    command_set_scaling_mode ["scaling_mode", "bogus"] st0 = st0) :=
  ⟨by decide, ⟨by decide, by decide, by decide, by decide⟩,
   scaling_mode_cycle st0 "bogus" (by decide)
     ⟨by decide, by decide, by decide, by decide⟩⟩
